import Mathlib

/-!
Verification of the ALT price-relay service.

Shallow embedding of the repository's JavaScript source (index.js, latest
variant, together with the legacy single-window variant that coexists in the
repo).  Modelling conventions:

* JSON numeric prices are modelled as exact rationals (`ℚ`); `parseFloat` on a
  well-formed numeric string is the identity under this reading.
* Calendar dates are modelled as integers (days on a linear timeline); the
  JavaScript `Date` comparisons become integer comparisons, and
  `setDate(getDate() - days)` becomes subtraction.  The legacy variant's
  `setMonth(getMonth() - 1)` cutoff is abstracted as a cutoff parameter
  `lastMonth`.
* The upstream Transactions API is an oracle `Upstream` mapping a
  (gradingCompany, gradeNumber) filter to the transaction list the service
  would receive for the asset of the current request; the internal asset id is
  already folded into the oracle.
* `fetch`/`response.json()`/property access follow the JavaScript semantics:
  `fetch` only fails on network errors (it does not inspect the status code),
  `json()` fails on an unparsable body, and property access on `undefined` or
  `null` throws a `TypeError` while a missing key on an object yields
  `undefined`.
* Aggregator functions additionally return the list of upstream sub-queries
  they issue, in order, so that claims counting upstream round trips can be
  stated; the transaction value component is exactly what the source returns.
-/

namespace ALT

/-- Confidence classification, `'High' / 'Medium' / 'Low'` in the source. -/
inductive Level where
  | Low : Level
  | Medium : Level
  | High : Level
deriving DecidableEq, Repr

/-- Rank of a confidence level, for stating monotonicity (Low < Medium < High). -/
def levelRank : Level → Nat
  | .Low => 0
  | .Medium => 1
  | .High => 2

/-- A raw upstream market transaction `{price, date}` as returned by the
Transactions API before the aggregator tags it. -/
structure RawTxn where
  price : ℚ
  date : ℤ
deriving DecidableEq, Repr

/-- A transaction as built by `getPrices`:
`{ price: m.price, date: m.date, gradingCompany: company, gradeNumber: grade }`. -/
structure Transaction where
  price : ℚ
  date : ℤ
  gradingCompany : String
  gradeNumber : String
deriving DecidableEq, Repr

/-- A filtered price point `{ price: parseFloat(transaction.price), date }`
produced by `filterPrices` inside the multi-window `calculateConfidence`. -/
structure PricePoint where
  price : ℚ
  date : ℤ
deriving DecidableEq, Repr

/-- The `{averagePrice, averageDeviation, confidenceLevel}` record returned by
`calculateAverageAndDeviation`. -/
structure ConfidenceResult where
  averagePrice : ℚ
  averageDeviation : ℚ
  confidenceLevel : Level
deriving DecidableEq, Repr

/-- Per-window entry of the multi-window result object:
`{recentPrices, averagePrice, averageDeviation, confidenceLevel}`. -/
structure WindowResult where
  recentPrices : List PricePoint
  averagePrice : ℚ
  averageDeviation : ℚ
  confidenceLevel : Level
deriving DecidableEq, Repr

/-- The four-window result object keyed by period, insertion order
`year, quarter, month, week` in the source's `timespans`. -/
structure Results where
  year : WindowResult
  quarter : WindowResult
  month : WindowResult
  week : WindowResult
deriving DecidableEq, Repr

/-- Window labels of the multi-window estimator. -/
inductive Window where
  | year : Window
  | quarter : Window
  | month : Window
  | week : Window
deriving DecidableEq, Repr

/-- `timespans = { year: 365, quarter: 90, month: 30, week: 7 }`. -/
def timespans : Window → ℤ
  | .year => 365
  | .quarter => 90
  | .month => 30
  | .week => 7

/-- Projection of the result object at a window label. -/
def Results.get (r : Results) : Window → WindowResult
  | .year => r.year
  | .quarter => r.quarter
  | .month => r.month
  | .week => r.week

/-- `filterPrices(days)` from the multi-window `calculateConfidence`:
`startDate = now - days`; keep transactions with `new Date(t.date) >= startDate`
and map to `{price: parseFloat(t.price), date: t.date}`. -/
def filterPrices (now days : ℤ) (prices : List Transaction) : List PricePoint :=
  (prices.filter (fun t => now - days ≤ t.date)).map
    (fun t => { price := t.price, date := t.date })

/-- `calculateAverageAndDeviation(recentPrices)` from the source: on an empty
list return `{0, 0, Low}`; otherwise average the prices with `reduce`, average
the absolute deviations with `reduce`, and classify against the `0.1` and `0.2`
relative-deviation thresholds. -/
def calculateAverageAndDeviation (recentPrices : List PricePoint) : ConfidenceResult :=
  if recentPrices.length = 0 then
    { averagePrice := 0, averageDeviation := 0, confidenceLevel := .Low }
  else
    let averagePrice :=
      recentPrices.foldl (fun acc t => acc + t.price) 0 / (recentPrices.length : ℚ)
    let averageDeviation :=
      recentPrices.foldl (fun acc t => acc + |t.price - averagePrice|) 0
        / (recentPrices.length : ℚ)
    let confidenceLevel :=
      if averageDeviation < averagePrice * 0.1 then Level.High
      else if averageDeviation < averagePrice * 0.2 then Level.Medium
      else Level.Low
    { averagePrice := averagePrice, averageDeviation := averageDeviation,
      confidenceLevel := confidenceLevel }

/-- Body of the multi-window loop for one `(period, days)` entry. -/
def windowResult (now days : ℤ) (prices : List Transaction) : WindowResult :=
  let recentPrices := filterPrices now days prices
  let r := calculateAverageAndDeviation recentPrices
  { recentPrices := recentPrices, averagePrice := r.averagePrice,
    averageDeviation := r.averageDeviation, confidenceLevel := r.confidenceLevel }

/-- The multi-window `calculateConfidence(prices)`: one `windowResult` per
entry of `timespans`, in insertion order `year, quarter, month, week`. -/
def calculateConfidence (now : ℤ) (prices : List Transaction) : Results :=
  { year := windowResult now (timespans .year) prices
    quarter := windowResult now (timespans .quarter) prices
    month := windowResult now (timespans .month) prices
    week := windowResult now (timespans .week) prices }

/-- The legacy single-window `calculateConfidence(prices)` (earlier revision in
the repo): filter to transactions with `new Date(t.date) <= lastMonth`, where
`lastMonth` is one calendar month before now (the calendar computation is
abstracted as the cutoff parameter), map `parseFloat(t.price)`. -/
def legacyRecentPrices (lastMonth : ℤ) (prices : List Transaction) : List ℚ :=
  (prices.filter (fun t => t.date ≤ lastMonth)).map (fun t => t.price)

/-- Remainder of the legacy `calculateConfidence`: default `'Low'` on empty,
otherwise classify the average absolute deviation against the `0.1`/`0.2`
relative thresholds. -/
def calculateConfidenceLegacy (lastMonth : ℤ) (prices : List Transaction) : Level :=
  let recentPrices := legacyRecentPrices lastMonth prices
  if recentPrices.length = 0 then Level.Low
  else
    let averagePrice := recentPrices.foldl (fun acc p => acc + p) 0 / (recentPrices.length : ℚ)
    let averageDeviation :=
      recentPrices.foldl (fun acc p => acc + |p - averagePrice|) 0 / (recentPrices.length : ℚ)
    if averageDeviation < averagePrice * 0.1 then Level.High
    else if averageDeviation < averagePrice * 0.2 then Level.Medium
    else Level.Low

/-! ## JSON values, fetch results, and JavaScript property access -/

/-- A parsed JSON value (the fragment needed by the service). -/
inductive Json where
  | null : Json
  | str : String → Json
  | num : ℚ → Json
  | obj : List (String × Json) → Json

/-- Errors a request can throw: a network failure of `fetch`, a body that
`response.json()` cannot parse, and the `TypeError` thrown by a property
access on `undefined` or `null`. -/
inductive JsError where
  | fetchError : JsError
  | jsonError : JsError
  | typeError : JsError
deriving DecidableEq, Repr

/-- Outcome of a `fetch`: a network error, or a response carrying an HTTP
status code and a body (`none` when `response.json()` would fail to parse). -/
inductive FetchResult where
  | netError : FetchResult
  | response : Nat → Option Json → FetchResult

/-- JavaScript property access `v[k]` on a possibly-`undefined` value
(`none` models `undefined`): throws `TypeError` on `undefined`/`null`,
looks the key up on an object (missing key gives `undefined`), and gives
`undefined` on other primitives. -/
def jsGet (v : Option Json) (k : String) : Except JsError (Option Json) :=
  match v with
  | none => .error .typeError
  | some .null => .error .typeError
  | some (.obj fields) => .ok (fields.lookup k)
  | some _ => .ok none

/-- `isErr e` is `true` exactly on `.error`. -/
def isErr {ε α : Type} (e : Except ε α) : Bool :=
  match e with
  | .error _ => true
  | .ok _ => false

/-- `getInternalId(slabNumber)`: await the Cert fetch, parse the body, and
return `data.data.cert.asset.id`.  The status code of the response is never
inspected, exactly as in the source. -/
def getInternalId : FetchResult → Except JsError (Option Json)
  | .netError => .error .fetchError
  | .response _ none => .error .jsonError
  | .response _ (some data) =>
      match jsGet (some data) "data" with
      | .error e => .error e
      | .ok d =>
          match jsGet d "cert" with
          | .error e => .error e
          | .ok c =>
              match jsGet c "asset" with
              | .error e => .error e
              | .ok a => jsGet a "id"

/-! ## Spec-side characterizations of the resolver -/

/-- The key path the resolver reads inside the parsed body. -/
def certPath : List String := ["data", "cert", "asset", "id"]

/-- Spec-side strict path lookup: the value at a key path, descending only
through objects (`none` when the path is absent). -/
def getPath : Json → List String → Option Json
  | j, [] => some j
  | .obj fields, k :: ks =>
      match fields.lookup k with
      | some j' => getPath j' ks
      | none => none
  | _, _ :: _ => none

/-- `true` on HTTP 2xx statuses. -/
def isSuccessStatus (s : Nat) : Bool := decide (200 ≤ s) && decide (s < 300)

/-- The failure condition claimed by the spec for the resolver: the HTTP call
failed, or the status is non-success, or the body lacks the
`data.cert.asset.id` path (an unparsable body lacks it vacuously). -/
def claimFails : FetchResult → Bool
  | .netError => true
  | .response s body =>
      !isSuccessStatus s ||
        (match body with
         | none => true
         | some j => (getPath j certPath).isNone)

/-- Spec-side walk of a key path under JavaScript access semantics: `none`
when some access in the chain is applied to `undefined` or `null` (a thrown
`TypeError`), otherwise the final value (possibly `undefined`). -/
def pathAccess : Option Json → List String → Option (Option Json)
  | v, [] => some v
  | none, _ :: _ => none
  | some .null, _ :: _ => none
  | some (.obj fields), k :: ks => pathAccess (fields.lookup k) ks
  | some _, _ :: ks => pathAccess none ks

/-- The failure condition the code actually implements: network failure,
unparsable body, or a `TypeError` while walking `data.cert.asset.id`. -/
def amendedFails : FetchResult → Bool
  | .netError => true
  | .response _ none => true
  | .response _ (some j) => (pathAccess (some j) certPath).isNone

/-- Sequential JavaScript property accesses along a key path, propagating the
first thrown error. -/
def jsGetChain : Option Json → List String → Except JsError (Option Json)
  | v, [] => .ok v
  | v, k :: ks =>
      match jsGet v k with
      | .error e => .error e
      | .ok v' => jsGetChain v' ks

/-! ## The price aggregator `getPrices` -/

/-- The Transactions API, as seen by one request: the transaction list
returned for a `(gradingCompany, gradeNumber)` filter on the request's asset. -/
def Upstream : Type := String → String → List RawTxn

/-- JavaScript truthiness of an optional query-string parameter: present and
non-empty. -/
def jsTruthy : Option String → Bool
  | none => false
  | some s => !(s == "")

/-- `gradeNumber ? [gradeNumber] : ["9.0", "10.0"]` (the `PSA` row of the
`gradeNumbers` object). -/
def gradeNumbersPSA (gradeNumber : Option String) : List String :=
  if jsTruthy gradeNumber then [gradeNumber.getD ""] else ["9.0", "10.0"]

/-- `gradeNumber ? [gradeNumber] : ["9.0", "9.5", "10.0"]` (the `BGS` row). -/
def gradeNumbersBGS (gradeNumber : Option String) : List String :=
  if jsTruthy gradeNumber then [gradeNumber.getD ""] else ["9.0", "9.5", "10.0"]

/-- `gradeNumbers[company]`: `none` models the `undefined` JavaScript yields
for a key other than `PSA`/`BGS` (iterating it throws a `TypeError`). -/
def gradeNumbersLookup (gradeNumber : Option String) (company : String) :
    Option (List String) :=
  if company = "PSA" then some (gradeNumbersPSA gradeNumber)
  else if company = "BGS" then some (gradeNumbersBGS gradeNumber)
  else none

/-- One sub-query's transactions: `data.data.asset.marketTransactions.map(m =>
({price: m.price, date: m.date, gradingCompany: company, gradeNumber: grade}))`. -/
def tagTxns (upstream : Upstream) (company grade : String) : List Transaction :=
  (upstream company grade).map
    (fun m => { price := m.price, date := m.date,
                gradingCompany := company, gradeNumber := grade })

/-- Inner loop of `getPrices` over one company's grade list, threading the
accumulated `allTransactions` and the ordered log of issued sub-queries.
`exitEnabled` is the truthiness of `gradingCompany && gradeNumber`; the
`break` fires after appending when `allTransactions.length > 0 && exitEnabled`
and exits only this inner loop. -/
def runGrades (upstream : Upstream) (exitEnabled : Bool) (company : String) :
    List String → List Transaction → List (String × String) →
    List Transaction × List (String × String)
  | [], acc, log => (acc, log)
  | g :: rest, acc, log =>
      let acc' := acc ++ tagTxns upstream company g
      let log' := log ++ [(company, g)]
      cond (decide (0 < acc'.length) && exitEnabled) (acc', log')
        (runGrades upstream exitEnabled company rest acc' log')

/-- Outer loop of `getPrices` over the grading companies.  Looking up an
unknown company in `gradeNumbers` throws (`.error .typeError`); the log of
sub-queries issued so far is returned in either case. -/
def runCompanies (upstream : Upstream) (exitEnabled : Bool)
    (gradeNumber : Option String) :
    List String → List Transaction → List (String × String) →
    List (String × String) × Except JsError (List Transaction)
  | [], acc, log => (log, .ok acc)
  | c :: rest, acc, log =>
      match gradeNumbersLookup gradeNumber c with
      | none => (log, .error .typeError)
      | some grades =>
          let p := runGrades upstream exitEnabled c grades acc log
          runCompanies upstream exitEnabled gradeNumber rest p.1 p.2

/-- `getPrices(internalId, gradingCompany, gradeNumber)`.  The first component
is the ordered list of `(company, grade)` upstream sub-queries issued; the
second is what the source function returns (or the error it throws). -/
def getPrices (upstream : Upstream) (gradingCompany gradeNumber : Option String) :
    List (String × String) × Except JsError (List Transaction) :=
  let companies :=
    if jsTruthy gradingCompany then [gradingCompany.getD ""] else ["PSA", "BGS"]
  runCompanies upstream (jsTruthy gradingCompany && jsTruthy gradeNumber)
    gradeNumber companies [] []

/-- The full default grade matrix, in query order. -/
def fullMatrixQueries : List (String × String) :=
  [("PSA", "9.0"), ("PSA", "10.0"), ("BGS", "9.0"), ("BGS", "9.5"), ("BGS", "10.0")]

/-- Spec-side description of an unfiltered aggregation: the concatenation of
the tagged transactions of the five default (company, grade) pairs, in order. -/
def unfilteredTransactions (upstream : Upstream) : List Transaction :=
  tagTxns upstream "PSA" "9.0" ++ tagTxns upstream "PSA" "10.0" ++
    tagTxns upstream "BGS" "9.0" ++ tagTxns upstream "BGS" "9.5" ++
    tagTxns upstream "BGS" "10.0"

/-! ## The `/get-prices` request handler -/

/-- Environment of one request: the Cert API fetch outcome, the Transactions
API oracle, and the current date. -/
structure Env where
  cert : FetchResult
  upstream : Upstream
  now : ℤ

/-- The handler's HTTP response: `400`, `200` with `{prices, confidence}`, or
`500`. -/
inductive HandlerResponse where
  | badRequest : HandlerResponse
  | ok : List Transaction → Results → HandlerResponse
  | serverError : HandlerResponse

/-- The `/get-prices` handler (latest variant): validate `slabNumber`, resolve
the internal id, fetch prices with the caller's filters, re-fetch with no
filters when the result is empty, and respond with the prices and their
confidence object; any thrown error becomes a `500`.  The second component is
the ordered log of Transactions-API sub-queries the request issued. -/
def handler (env : Env) (slabNumber gradingCompany gradeNumber : Option String) :
    HandlerResponse × List (String × String) :=
  if jsTruthy slabNumber then
    match getInternalId env.cert with
    | .error _ => (.serverError, [])
    | .ok _internalId =>
        match getPrices env.upstream gradingCompany gradeNumber with
        | (log1, .error _) => (.serverError, log1)
        | (log1, .ok prices1) =>
            if prices1.length = 0 then
              match getPrices env.upstream none none with
              | (log2, .error _) => (.serverError, log1 ++ log2)
              | (log2, .ok prices2) =>
                  (.ok prices2 (calculateConfidence env.now prices2), log1 ++ log2)
            else (.ok prices1 (calculateConfidence env.now prices1), log1)
  else (.badRequest, [])

/-! ## Spec-side description of the confidence estimator -/

/-- Arithmetic mean of the prices of a window's filtered set, as the spec
words it. -/
def specMean (l : List PricePoint) : ℚ :=
  (l.map (fun t => t.price)).sum / (l.length : ℚ)

/-- Mean absolute deviation of the prices from their mean, as the spec words
it. -/
def specMAD (l : List PricePoint) : ℚ :=
  (l.map (fun t => |t.price - specMean l|)).sum / (l.length : ℚ)

/-- The spec's classification: `High` if `averageDeviation < 0.10 ×
averagePrice`; `Medium` if `< 0.20 × averagePrice`; else `Low`. -/
def specClassify (averagePrice averageDeviation : ℚ) : Level :=
  if averageDeviation < 0.10 * averagePrice then Level.High
  else if averageDeviation < 0.20 * averagePrice then Level.Medium
  else Level.Low

/-! ## Concrete request data used by the witnesses -/

/-- A well-formed Cert API body carrying `data.cert.asset.id = "A1"`. -/
def goodBody : Json :=
  .obj [("data", .obj [("cert", .obj [("asset",
    .obj [("id", .str "A1"), ("name", .str "Sample Card")])])])]

/-- A Cert API body whose `asset` object lacks the `id` key. -/
def noIdBody : Json :=
  .obj [("data", .obj [("cert", .obj [("asset",
    .obj [("name", .str "Sample Card")])])])]

/-- A Transactions oracle with no transactions for any filter. -/
def emptyUpstream : Upstream := fun _ _ => []

/-- A Transactions oracle with one transaction for the `(PSA, 10.0)` filter
and nothing elsewhere. -/
def psaTenUpstream : Upstream :=
  fun company grade =>
    if company = "PSA" ∧ grade = "10.0" then [{ price := 100, date := 0 }] else []

/-- A Transactions oracle with one transaction for every filter. -/
def busyUpstream : Upstream := fun _ _ => [{ price := 100, date := 0 }]

/-- A request environment whose certificate resolves and whose transaction
history is empty everywhere. -/
def envEmpty : Env :=
  { cert := .response 200 (some goodBody), upstream := emptyUpstream, now := 0 }

/-- A request environment whose Cert API fetch fails with a network error. -/
def envBadCert : Env :=
  { cert := .netError, upstream := emptyUpstream, now := 0 }

/-! ## Estimator lemmas -/

/-- A `reduce`-style left fold of added contributions equals the sum of the
mapped list. -/
theorem foldl_add_map (f : PricePoint → ℚ) (l : List PricePoint) :
    ∀ a : ℚ, l.foldl (fun acc t => acc + f t) a = a + (l.map f).sum := by
  induction l with
  | nil => intro a; simp
  | cons t ts ih => intro a; simp [ih, add_assoc]

/-- On a non-empty window, `calculateAverageAndDeviation` returns exactly the
spec-side mean, mean absolute deviation, and threshold classification. -/
theorem calcAD_eq_spec (l : List PricePoint) (h : l ≠ []) :
    calculateAverageAndDeviation l =
      { averagePrice := specMean l, averageDeviation := specMAD l,
        confidenceLevel := specClassify (specMean l) (specMAD l) } := by
  have hlen : ¬ l.length = 0 := by simpa using h
  have h1 : l.foldl (fun acc t => acc + t.price) 0 = (l.map (fun t => t.price)).sum := by
    simpa using foldl_add_map (fun t => t.price) l 0
  have h2 : l.foldl (fun acc t => acc + |t.price - specMean l|) 0 =
      (l.map (fun t => |t.price - specMean l|)).sum := by
    simpa using foldl_add_map (fun t => |t.price - specMean l|) l 0
  unfold calculateAverageAndDeviation
  rw [if_neg hlen]
  simp only [specMean] at h2
  simp only [h1, h2, specMean, specMAD, specClassify,
    mul_comm ((l.map (fun t => t.price)).sum / (l.length : ℚ))]
  norm_num [h2]

/-- The result object's entry at a window label is the loop body evaluated at
that window's timespan. -/
theorem results_get_windowResult (now : ℤ) (prices : List Transaction) (w : Window) :
    (calculateConfidence now prices).get w = windowResult now (timespans w) prices := by
  cases w <;> rfl

/-- For a fixed mean, the threshold classification never increases when the
deviation grows. -/
theorem specClassify_anti (a : ℚ) {d₁ d₂ : ℚ} (h : d₁ ≤ d₂) :
    levelRank (specClassify a d₂) ≤ levelRank (specClassify a d₁) := by
  unfold specClassify
  split_ifs <;> simp_all [levelRank] <;> linarith

/-- C5: in the multi-window estimator, a window whose filtered transaction set
is empty yields `averagePrice = 0`, `averageDeviation = 0`, and
`confidenceLevel = Low`, for every window `week/month/quarter/year`. -/
theorem C5_empty_window_defaults (now : ℤ) (prices : List Transaction) (w : Window)
    (h : filterPrices now (timespans w) prices = []) :
    ((calculateConfidence now prices).get w).averagePrice = 0 ∧
    ((calculateConfidence now prices).get w).averageDeviation = 0 ∧
    ((calculateConfidence now prices).get w).confidenceLevel = Level.Low := by
  rw [results_get_windowResult]
  unfold windowResult
  simp [h, calculateAverageAndDeviation]

/-- Witness for C5 at the week window of an empty input list. -/
theorem C5_empty_window_defaults_witness :
    filterPrices 0 (timespans .week) [] = [] ∧
    ((calculateConfidence 0 []).get .week).averagePrice = 0 ∧
    ((calculateConfidence 0 []).get .week).averageDeviation = 0 ∧
    ((calculateConfidence 0 []).get .week).confidenceLevel = Level.Low :=
  ⟨rfl, C5_empty_window_defaults 0 [] .week rfl⟩

/-- C6: on every non-empty filtered set, the estimator returns the arithmetic
mean as `averagePrice`, the mean absolute deviation as `averageDeviation`, and
classifies High below `0.10 × averagePrice`, else Medium below
`0.20 × averagePrice`, else Low. -/
theorem C6_nonempty_classification (l : List PricePoint) (h : l ≠ []) :
    (calculateAverageAndDeviation l).averagePrice = specMean l ∧
    (calculateAverageAndDeviation l).averageDeviation = specMAD l ∧
    (calculateAverageAndDeviation l).confidenceLevel =
      specClassify (specMean l) (specMAD l) := by
  rw [calcAD_eq_spec l h]
  exact ⟨rfl, rfl, rfl⟩

/-- Witness for C6 on a concrete two-element window. -/
theorem C6_nonempty_classification_witness :
    ([⟨100, 0⟩, ⟨105, 0⟩] : List PricePoint) ≠ [] ∧
    ((calculateAverageAndDeviation [⟨100, 0⟩, ⟨105, 0⟩]).averagePrice =
        specMean [⟨100, 0⟩, ⟨105, 0⟩] ∧
      (calculateAverageAndDeviation [⟨100, 0⟩, ⟨105, 0⟩]).averageDeviation =
        specMAD [⟨100, 0⟩, ⟨105, 0⟩] ∧
      (calculateAverageAndDeviation [⟨100, 0⟩, ⟨105, 0⟩]).confidenceLevel =
        specClassify (specMean [⟨100, 0⟩, ⟨105, 0⟩]) (specMAD [⟨100, 0⟩, ⟨105, 0⟩])) :=
  ⟨by decide, C6_nonempty_classification [⟨100, 0⟩, ⟨105, 0⟩] (by decide)⟩

/-- C3: for non-empty windows with the same arithmetic mean, a mean absolute
deviation at least as large never yields a strictly higher confidence level. -/
theorem C3_confidence_antitone_in_dispersion (l₁ l₂ : List PricePoint)
    (h₁ : l₁ ≠ []) (h₂ : l₂ ≠ [])
    (hmean : (calculateAverageAndDeviation l₁).averagePrice =
      (calculateAverageAndDeviation l₂).averagePrice)
    (hdev : (calculateAverageAndDeviation l₁).averageDeviation ≤
      (calculateAverageAndDeviation l₂).averageDeviation) :
    levelRank (calculateAverageAndDeviation l₂).confidenceLevel ≤
      levelRank (calculateAverageAndDeviation l₁).confidenceLevel := by
  rw [calcAD_eq_spec l₁ h₁, calcAD_eq_spec l₂ h₂] at hmean hdev ⊢
  dsimp only at hmean hdev ⊢
  rw [← hmean]
  exact specClassify_anti _ hdev

/-- Witness for C3: same mean 100, deviations 0 and 20. -/
theorem C3_confidence_antitone_in_dispersion_witness :
    ([⟨100, 0⟩, ⟨100, 0⟩] : List PricePoint) ≠ [] ∧
    ([⟨80, 0⟩, ⟨120, 0⟩] : List PricePoint) ≠ [] ∧
    (calculateAverageAndDeviation [⟨100, 0⟩, ⟨100, 0⟩]).averagePrice =
      (calculateAverageAndDeviation [⟨80, 0⟩, ⟨120, 0⟩]).averagePrice ∧
    (calculateAverageAndDeviation [⟨100, 0⟩, ⟨100, 0⟩]).averageDeviation ≤
      (calculateAverageAndDeviation [⟨80, 0⟩, ⟨120, 0⟩]).averageDeviation ∧
    levelRank (calculateAverageAndDeviation [⟨80, 0⟩, ⟨120, 0⟩]).confidenceLevel ≤
      levelRank (calculateAverageAndDeviation [⟨100, 0⟩, ⟨100, 0⟩]).confidenceLevel :=
  ⟨by decide, by decide,
    by norm_num [calculateAverageAndDeviation],
    by norm_num [calculateAverageAndDeviation, abs, max_def],
    C3_confidence_antitone_in_dispersion [⟨100, 0⟩, ⟨100, 0⟩] [⟨80, 0⟩, ⟨120, 0⟩]
      (by decide) (by decide)
      (by norm_num [calculateAverageAndDeviation])
      (by norm_num [calculateAverageAndDeviation, abs, max_def])⟩

/-- The multi-window filter on a singleton keeps the transaction exactly when
its date is on or after the window start. -/
theorem filterPrices_singleton (now days : ℤ) (t : Transaction) :
    filterPrices now days [t] =
      if now - days ≤ t.date then [{ price := t.price, date := t.date }] else [] := by
  by_cases hd : now - days ≤ t.date
  · rw [if_pos hd, filterPrices, List.filter_cons, if_pos (by simpa using hd)]
    simp
  · rw [if_neg hd, filterPrices, List.filter_cons, if_neg (by simpa using hd)]
    simp

/-- The legacy filter on a singleton keeps the transaction exactly when its
date is on or before the month-ago cutoff. -/
theorem legacyRecentPrices_singleton (lastMonth : ℤ) (t : Transaction) :
    legacyRecentPrices lastMonth [t] =
      if t.date ≤ lastMonth then [t.price] else [] := by
  by_cases hd : t.date ≤ lastMonth
  · rw [if_pos hd, legacyRecentPrices, List.filter_cons, if_pos (by simpa using hd)]
    simp
  · rw [if_neg hd, legacyRecentPrices, List.filter_cons, if_neg (by simpa using hd)]
    simp

/-- C7: the legacy single-window filter keeps a transaction exactly when its
date is on or before the month-ago cutoff, while the multi-window filter keeps
it exactly when its date is on or after the window start `now - days`; both
edges are inclusive, and with coinciding cutoffs no transaction is dropped by
both filters — the comparison directions are opposite. -/
theorem C7_opposite_filter_directions (lastMonth now days : ℤ) (t : Transaction) :
    (legacyRecentPrices lastMonth [t] = [t.price] ↔ t.date ≤ lastMonth) ∧
    (filterPrices now days [t] = [{ price := t.price, date := t.date }] ↔
      now - days ≤ t.date) ∧
    (lastMonth < t.date → legacyRecentPrices lastMonth [t] = []) ∧
    (t.date < now - days → filterPrices now days [t] = []) ∧
    (now - days = lastMonth →
      ¬(legacyRecentPrices lastMonth [t] = [] ∧ filterPrices now days [t] = [])) := by
  rw [legacyRecentPrices_singleton, filterPrices_singleton]
  by_cases hd : t.date ≤ lastMonth <;> by_cases hd' : now - days ≤ t.date <;>
    (simp [hd, hd']; try omega)

/-- Witness for C7: a transaction strictly after the legacy cutoff and on the
multi-window start edge is dropped by the legacy filter and kept by the
multi-window filter. -/
theorem C7_opposite_filter_directions_witness :
    ((3 : ℤ) < (5 : ℤ) → legacyRecentPrices 3
      [{ price := 100, date := 5, gradingCompany := "PSA", gradeNumber := "10.0" }] = []) ∧
    legacyRecentPrices 3
      [{ price := 100, date := 5, gradingCompany := "PSA", gradeNumber := "10.0" }] = [] ∧
    filterPrices 10 5
      [{ price := 100, date := 5, gradingCompany := "PSA", gradeNumber := "10.0" }] =
      [{ price := 100, date := 5 }] :=
  ⟨fun _ => (C7_opposite_filter_directions 3 10 5
      { price := 100, date := 5, gradingCompany := "PSA", gradeNumber := "10.0" }).2.2.1
      (by decide),
    (C7_opposite_filter_directions 3 10 5
      { price := 100, date := 5, gradingCompany := "PSA", gradeNumber := "10.0" }).2.2.1
      (by decide),
    (C7_opposite_filter_directions 3 10 5
      { price := 100, date := 5, gradingCompany := "PSA", gradeNumber := "10.0" }).2.1.mpr
      (by decide)⟩

/-! ## Aggregator lemmas -/

/-- An unfiltered aggregation never throws, issues exactly the five-pair
default matrix of sub-queries in order, and returns the concatenation of the
tagged results. -/
theorem getPrices_unfiltered (u : Upstream) :
    getPrices u none none = (fullMatrixQueries, .ok (unfilteredTransactions u)) := by
  simp [getPrices, runCompanies, runGrades, jsTruthy, gradeNumbersLookup,
    gradeNumbersPSA, gradeNumbersBGS, fullMatrixQueries, unfilteredTransactions,
    Bool.and_false, List.append_assoc]

/-- C2: with no explicit grading filters, the aggregator issues exactly 5
upstream sub-queries, one per pair of the fixed matrix `PSA × [9.0, 10.0]` and
`BGS × [9.0, 9.5, 10.0]`, with no early exit. -/
theorem C2_full_matrix_five_queries (u : Upstream) :
    (getPrices u none none).1 =
      [("PSA", "9.0"), ("PSA", "10.0"), ("BGS", "9.0"), ("BGS", "9.5"), ("BGS", "10.0")] ∧
    (getPrices u none none).1.length = 5 := by
  rw [getPrices_unfiltered]
  exact ⟨rfl, rfl⟩

/-- C8: with both filters `PSA`/`10.0` supplied and a non-empty upstream
result for that pair, the aggregator issues exactly one sub-query and touches
no other pair. -/
theorem C8_single_pair_single_query (u : Upstream) (h : u "PSA" "10.0" ≠ []) :
    (getPrices u (some "PSA") (some "10.0")).1 = [("PSA", "10.0")] := by
  rcases hv : u "PSA" "10.0" with _ | ⟨x, xs⟩
  · exact absurd hv h
  · simp [getPrices, runCompanies, runGrades, jsTruthy, gradeNumbersLookup,
      gradeNumbersPSA, gradeNumbersBGS, tagTxns, hv]

/-- Witness for C8 on an oracle with one `(PSA, 10.0)` transaction. -/
theorem C8_single_pair_single_query_witness :
    psaTenUpstream "PSA" "10.0" ≠ [] ∧
    (getPrices psaTenUpstream (some "PSA") (some "10.0")).1 = [("PSA", "10.0")] :=
  ⟨by decide, C8_single_pair_single_query psaTenUpstream (by decide)⟩

/-- C10: with a grade filter but no company filter, the aggregator issues
exactly the two sub-queries `(PSA, g)` and `(BGS, g)`, whatever the upstream
returns — the early exit needs both filters and the break leaves only the
inner loop. -/
theorem C10_grade_only_two_queries (u : Upstream) (g : String) (hg : g ≠ "") :
    (getPrices u none (some g)).1 = [("PSA", g), ("BGS", g)] := by
  simp [getPrices, runCompanies, runGrades, jsTruthy, gradeNumbersLookup,
    gradeNumbersPSA, gradeNumbersBGS, hg, Bool.and_false]

/-- Witness for C10 on an oracle that returns a transaction for every pair:
both sub-queries are still issued. -/
theorem C10_grade_only_two_queries_witness :
    ("10.0" : String) ≠ "" ∧
    (getPrices busyUpstream none (some "10.0")).1 = [("PSA", "10.0"), ("BGS", "10.0")] :=
  ⟨by decide, C10_grade_only_two_queries busyUpstream "10.0" (by decide)⟩

/-! ## Resolver lemmas -/

/-- The resolver's sequence of property accesses is the key-path chain
`data.cert.asset.id` over the parsed body; the status code plays no role. -/
theorem getInternalId_eq_chain (s : Nat) (j : Json) :
    getInternalId (.response s (some j)) = jsGetChain (some j) certPath := by
  cases h1 : jsGet (some j) "data" with
  | error e => simp [getInternalId, jsGetChain, certPath, h1]
  | ok d =>
      cases h2 : jsGet d "cert" with
      | error e => simp [getInternalId, jsGetChain, certPath, h1, h2]
      | ok c =>
          cases h3 : jsGet c "asset" with
          | error e => simp [getInternalId, jsGetChain, certPath, h1, h2, h3]
          | ok a =>
              cases h4 : jsGet a "id" <;>
                simp [getInternalId, jsGetChain, certPath, h1, h2, h3, h4]

/-- Chained property accesses either throw a `TypeError` (when the walk hits
`undefined`/`null`) or produce the walked value. -/
theorem jsGetChain_pathAccess (ks : List String) : ∀ v : Option Json,
    jsGetChain v ks = (match pathAccess v ks with
      | none => Except.error JsError.typeError
      | some w => Except.ok w) := by
  induction ks with
  | nil => intro v; simp [jsGetChain, pathAccess]
  | cons k ks ih =>
      intro v
      match v with
      | none => simp [jsGetChain, pathAccess, jsGet]
      | some .null => simp [jsGetChain, pathAccess, jsGet]
      | some (.obj fields) => simp [jsGetChain, pathAccess, jsGet, ih]
      | some (.str sx) => simp [jsGetChain, pathAccess, jsGet, ih]
      | some (.num q) => simp [jsGetChain, pathAccess, jsGet, ih]

/-- C4 counterexample: a non-success upstream status with a well-formed body.
The claim says the resolver must fail there; the code returns the id without
ever consulting the status. -/
theorem C4_nonsuccess_status_counterexample :
    ¬ ((isErr (getInternalId (.response 404 (some goodBody))) = true) ↔
       (claimFails (.response 404 (some goodBody)) = true)) := by
  decide

/-- C4 amended: the resolver never consults the status; it fails exactly on a
network error, an unparsable body, or a traversal of `data.cert.asset.id`
that applies an access to `undefined`/`null`; when the traversal completes it
returns the traversed value (which is `undefined`, not an error, when the
`id` key is absent); and whenever the resolver throws, the handler turns the
error into a 500 response. -/
theorem C4_amended_resolver_failure_condition :
    (∀ (s₁ s₂ : Nat) (b : Option Json),
      getInternalId (.response s₁ b) = getInternalId (.response s₂ b)) ∧
    (∀ r : FetchResult, isErr (getInternalId r) = amendedFails r) ∧
    (∀ (s : Nat) (j : Json) (v : Option Json),
      pathAccess (some j) certPath = some v →
      getInternalId (.response s (some j)) = .ok v) ∧
    (∀ (env : Env) (slab gc gn : Option String),
      jsTruthy slab = true → isErr (getInternalId env.cert) = true →
      handler env slab gc gn = (.serverError, [])) := by
  refine ⟨?_, ?_, ?_, ?_⟩
  · intro s₁ s₂ b
    cases b <;> rfl
  · intro r
    match r with
    | .netError => rfl
    | .response s none => rfl
    | .response s (some j) =>
        rw [getInternalId_eq_chain, jsGetChain_pathAccess]
        cases hp : pathAccess (some j) certPath <;>
          simp [amendedFails, isErr, hp]
  · intro s j v hp
    rw [getInternalId_eq_chain, jsGetChain_pathAccess, hp]
  · intro env slab gc gn hslab herr
    cases h : getInternalId env.cert with
    | error e =>
        unfold handler
        simp [hslab, h]
    | ok v =>
        rw [h] at herr
        simp [isErr] at herr

/-- Witness for C4's amended theorem: the status-404 response with a
well-formed body resolves to the id, a body whose `asset` object lacks an
`id` key resolves to `undefined` without failing, and a network-failing Cert
fetch makes the handler respond 500. -/
theorem C4_amended_resolver_failure_condition_witness :
    pathAccess (some goodBody) certPath = some (some (.str "A1")) ∧
    getInternalId (.response 404 (some goodBody)) = .ok (some (.str "A1")) ∧
    pathAccess (some noIdBody) certPath = some none ∧
    getInternalId (.response 200 (some noIdBody)) = .ok none ∧
    jsTruthy (some "12345678") = true ∧
    isErr (getInternalId envBadCert.cert) = true ∧
    handler envBadCert (some "12345678") none none = (.serverError, []) :=
  ⟨rfl,
    C4_amended_resolver_failure_condition.2.2.1 404 goodBody (some (.str "A1")) rfl,
    rfl,
    C4_amended_resolver_failure_condition.2.2.1 200 noIdBody none rfl,
    rfl, rfl,
    C4_amended_resolver_failure_condition.2.2.2 envBadCert (some "12345678")
      none none rfl rfl⟩

/-! ## Handler lemmas -/

/-- C1: when the first aggregation, invoked with explicit filters, returns
zero transactions, the handler re-invokes the aggregator with no filters,
responds with the unfiltered result, and computes the confidence object over
that unfiltered result. -/
theorem C1_explicit_filter_fallback (env : Env) (slab gc gn : Option String)
    (v : Option Json) (log1 : List (String × String))
    (hslab : jsTruthy slab = true) (_hgc : jsTruthy gc = true)
    (_hgn : jsTruthy gn = true)
    (hcert : getInternalId env.cert = .ok v)
    (hempty : getPrices env.upstream gc gn = (log1, .ok [])) :
    handler env slab gc gn =
      (.ok (unfilteredTransactions env.upstream)
        (calculateConfidence env.now (unfilteredTransactions env.upstream)),
       log1 ++ fullMatrixQueries) := by
  unfold handler
  rw [hcert, hempty, getPrices_unfiltered]
  simp [hslab]

/-- Witness for C1: filters `PSA`/`10.0` over an empty history. -/
theorem C1_explicit_filter_fallback_witness :
    jsTruthy (some "12345678") = true ∧
    getInternalId envEmpty.cert = .ok (some (.str "A1")) ∧
    getPrices envEmpty.upstream (some "PSA") (some "10.0") =
      ([("PSA", "10.0")], .ok []) ∧
    handler envEmpty (some "12345678") (some "PSA") (some "10.0") =
      (.ok (unfilteredTransactions envEmpty.upstream)
        (calculateConfidence envEmpty.now (unfilteredTransactions envEmpty.upstream)),
       [("PSA", "10.0")] ++ fullMatrixQueries) :=
  ⟨rfl, rfl, rfl,
    C1_explicit_filter_fallback envEmpty (some "12345678") (some "PSA") (some "10.0")
      (some (.str "A1")) [("PSA", "10.0")] rfl rfl rfl rfl rfl⟩

/-- C9: the fallback is triggered by emptiness alone — any first aggregation
returning zero transactions is followed by an unfiltered full-matrix
aggregation, so an unfiltered request whose whole matrix is empty issues the
five-pair matrix twice, 10 upstream price sub-queries. -/
theorem C9_fallback_on_emptiness_alone (env : Env) (slab : Option String)
    (v : Option Json)
    (hslab : jsTruthy slab = true) (hcert : getInternalId env.cert = .ok v) :
    (∀ (gc gn : Option String) (log1 : List (String × String)),
      getPrices env.upstream gc gn = (log1, .ok []) →
      (handler env slab gc gn).2 = log1 ++ fullMatrixQueries) ∧
    ((∀ c g, (c, g) ∈ fullMatrixQueries → env.upstream c g = []) →
      (handler env slab none none).2 = fullMatrixQueries ++ fullMatrixQueries ∧
      (handler env slab none none).2.length = 10) := by
  constructor
  · intro gc gn log1 hempty
    unfold handler
    rw [hcert, hempty, getPrices_unfiltered]
    simp [hslab]
  · intro hM
    have e1 : env.upstream "PSA" "9.0" = [] := hM _ _ (by simp [fullMatrixQueries])
    have e2 : env.upstream "PSA" "10.0" = [] := hM _ _ (by simp [fullMatrixQueries])
    have e3 : env.upstream "BGS" "9.0" = [] := hM _ _ (by simp [fullMatrixQueries])
    have e4 : env.upstream "BGS" "9.5" = [] := hM _ _ (by simp [fullMatrixQueries])
    have e5 : env.upstream "BGS" "10.0" = [] := hM _ _ (by simp [fullMatrixQueries])
    have hnil : unfilteredTransactions env.upstream = [] := by
      simp [unfilteredTransactions, tagTxns, e1, e2, e3, e4, e5]
    have hfirst : getPrices env.upstream none none = (fullMatrixQueries, .ok []) := by
      rw [getPrices_unfiltered, hnil]
    have hlog : (handler env slab none none).2 = fullMatrixQueries ++ fullMatrixQueries := by
      unfold handler
      rw [hcert, hfirst]
      simp [hslab]
    exact ⟨hlog, by rw [hlog]; rfl⟩

/-- Witness for C9: an unfiltered request against an empty history makes 10
price sub-queries. -/
theorem C9_fallback_on_emptiness_alone_witness :
    jsTruthy (some "12345678") = true ∧
    (handler envEmpty (some "12345678") none none).2 =
      fullMatrixQueries ++ fullMatrixQueries ∧
    (handler envEmpty (some "12345678") none none).2.length = 10 :=
  ⟨rfl,
    ((C9_fallback_on_emptiness_alone envEmpty (some "12345678") (some (.str "A1"))
        rfl rfl).2 (fun _ _ _ => rfl)).1,
    ((C9_fallback_on_emptiness_alone envEmpty (some "12345678") (some (.str "A1"))
        rfl rfl).2 (fun _ _ _ => rfl)).2⟩

end ALT
